import Mathlib

/-!
Shallow embedding of `src/generativos/sympathetic-strings/src/physics.cpp`:
two strings coupled through a shared bridge, advanced by an explicit
finite-difference wave-equation step. Machine floats are modelled as exact
rationals. The C++ field `waveSpeed` stores `sqrt(tension/density)`, which is
irrational for the default parameters; the dynamics only ever use its square
(the squared Courant number), so the embedding stores `waveSpeedSq =
tension/density` and forms `r² = waveSpeedSq·(dt/dx)²`, which agrees exactly
with the source's `r = waveSpeed·dt/dx; r_sq = r*r`.
-/

def NUM_POINTS : ℕ := 200

def HISTORY_LENGTH : ℕ := 500

/-- `struct StringState`: one string's sample buffers and physical scalars. -/
@[ext] structure StringState where
  y : Fin NUM_POINTS → ℚ
  y_prev : Fin NUM_POINTS → ℚ
  v : Fin NUM_POINTS → ℚ
  frequency : ℚ
  tension : ℚ
  density : ℚ
  damping : ℚ
  waveSpeedSq : ℚ
  length : ℚ
  kineticEnergy : ℚ
  potentialEnergy : ℚ
  totalEnergy : ℚ
  forceOnBridge : ℚ

/-- The `StringState()` default constructor. -/
def StringState.mkDefault : StringState where
  y := fun _ => 0
  y_prev := fun _ => 0
  v := fun _ => 0
  frequency := 26163/100
  tension := 100
  density := 1/1000
  damping := 1/100000
  length := 1
  waveSpeedSq := 100 / (1/1000)
  kineticEnergy := 0
  potentialEnergy := 0
  totalEnergy := 0
  forceOnBridge := 0

/-- `StringState::setFrequency`: `T = 4·μ·L²·f²`, `waveSpeed = sqrt(T/μ)`
(stored squared, see module comment). -/
def StringState.setFrequency (s : StringState) (freq : ℚ) : StringState :=
  let tension := 4 * s.density * s.length * s.length * freq * freq
  { s with frequency := freq, tension := tension, waveSpeedSq := tension / s.density }

/-- The spatial grid spacing `dx = 1/(NUM_POINTS-1)`. -/
def dxQ : ℚ := 1 / ((NUM_POINTS : ℚ) - 1)

def lastIdx : Fin NUM_POINTS := ⟨NUM_POINTS - 1, by decide⟩

def penultIdx : Fin NUM_POINTS := ⟨NUM_POINTS - 2, by decide⟩

/-- The whole simulation class state. -/
@[ext] structure SympatheticStrings where
  string1 : StringState
  string2 : StringState
  bridgeY : ℚ
  bridgeV : ℚ
  bridgeStiffness : ℚ
  dt : ℚ
  time : ℚ
  stepCount : ℕ
  energy1History : List ℚ
  energy2History : List ℚ
  bridgeHistory : List ℚ

/-- The `SympatheticStrings()` constructor. -/
def SympatheticStrings.mkDefault : SympatheticStrings where
  string1 := StringState.mkDefault.setFrequency (26163/100)
  string2 := StringState.mkDefault.setFrequency 392
  bridgeY := 0
  bridgeV := 0
  bridgeStiffness := 1
  dt := 1 / (44100 * 8)
  time := 0
  stepCount := 0
  energy1History := []
  energy2History := []
  bridgeHistory := []

/-- The kinetic-energy sum of `SympatheticStrings::computeEnergy`. -/
def keFormula (s : StringState) : ℚ :=
  ∑ i : Fin NUM_POINTS, 1/2 * s.density * dxQ * s.v i * s.v i

/-- The potential-energy sum of `SympatheticStrings::computeEnergy` (the
`i < NUM_POINTS - 1` guard of the loop body becomes a vanishing last term). -/
def peFormula (s : StringState) : ℚ :=
  ∑ i : Fin NUM_POINTS,
    if h : i.val < NUM_POINTS - 1 then
      1/2 * s.tension * ((s.y ⟨i.val + 1, by omega⟩ - s.y i) / dxQ)
        * ((s.y ⟨i.val + 1, by omega⟩ - s.y i) / dxQ) * dxQ
    else 0

/-- `SympatheticStrings::computeEnergy`: kinetic, potential and total energy of
one string, written back into its energy fields. -/
def computeEnergy (s : StringState) : StringState :=
  { s with
    kineticEnergy := keFormula s
    potentialEnergy := peFormula s
    totalEnergy := keFormula s + peFormula s }

/-- The triangular pluck profile of the source's loop body: at sample
coordinate `x = i/(N-1)`, a linear ramp up to `position` then down. -/
def pluckProfile (position amplitude : ℚ) (i : Fin NUM_POINTS) : ℚ :=
  let x : ℚ := (i.val : ℚ) / ((NUM_POINTS : ℚ) - 1)
  if x < position then amplitude * x / position
  else amplitude * (1 - x) / (1 - position)

/-- The effect of `SympatheticStrings::pluck` on the selected string: the loop
writes the profile into `y` and `y_prev` and zeroes `v` at every index, then
the two lines after the loop overwrite index 0 with 0, and `computeEnergy`
runs. -/
def StringState.pluckString (s : StringState) (position amplitude : ℚ) : StringState :=
  let p := max (1/10) (min (9/10) position)
  let a := max 0 (min 1 amplitude)
  let ynew : Fin NUM_POINTS → ℚ := fun i => if i.val = 0 then 0 else pluckProfile p a i
  computeEnergy { s with y := ynew, y_prev := ynew, v := fun _ => 0 }

/-- `SympatheticStrings::pluck`: index 0 targets string 1, anything else
string 2. -/
def SympatheticStrings.pluck (sim : SympatheticStrings) (stringIndex : ℤ)
    (position amplitude : ℚ) : SympatheticStrings :=
  if stringIndex = 0 then
    { sim with string1 := sim.string1.pluckString position amplitude }
  else
    { sim with string2 := sim.string2.pluckString position amplitude }

/-- The boundary-candidate value `y_want` of `stepOnce` Step 2: the interior
update formula at the rightmost sample with the missing outside neighbor
replaced by the sample's own current value. -/
def yWant (s : StringState) (r_sq dt : ℚ) : ℚ :=
  2 * s.y lastIdx - s.y_prev lastIdx
    + r_sq * (s.y penultIdx - 2 * s.y lastIdx + s.y lastIdx)
    - s.damping * dt * (s.y lastIdx - s.y_prev lastIdx) / dt

/-- The new displacement buffer of one string in `stepOnce`: index 0 is the
fixed left boundary, the last index is set to the new bridge position, and the
interior follows the explicit wave-equation update. -/
def yNewFun (s : StringState) (r_sq dt newBridgeY : ℚ) : Fin NUM_POINTS → ℚ :=
  fun i =>
    if i.val = 0 then 0
    else if hN : i.val = NUM_POINTS - 1 then newBridgeY
    else
      have hi : i.val + 1 < NUM_POINTS := by have := i.isLt; omega
      let lap := s.y ⟨i.val + 1, hi⟩ - 2 * s.y i + s.y ⟨i.val - 1, by omega⟩
      let vel := (s.y i - s.y_prev i) / dt
      2 * s.y i - s.y_prev i + r_sq * lap - s.damping * dt * vel

/-- `SympatheticStrings::recordHistory`: when `energy1History` is full, the
front element of all three sequences is erased; then the current energies and
bridge position are appended. -/
def SympatheticStrings.recordHistory (sim : SympatheticStrings) : SympatheticStrings :=
  let sim' :=
    if HISTORY_LENGTH ≤ sim.energy1History.length then
      { sim with
        energy1History := sim.energy1History.drop 1
        energy2History := sim.energy2History.drop 1
        bridgeHistory := sim.bridgeHistory.drop 1 }
    else sim
  { sim' with
    energy1History := sim'.energy1History ++ [sim.string1.totalEnergy]
    energy2History := sim'.energy2History ++ [sim.string2.totalEnergy]
    bridgeHistory := sim'.bridgeHistory ++ [sim.bridgeY] }

/-- The squared Courant number `r_sq = (waveSpeed·dt/dx)²` of `stepOnce`. -/
def courantSq (s : StringState) (dt : ℚ) : ℚ :=
  s.waveSpeedSq * (dt / dxQ) * (dt / dxQ)

/-- Step 3 of `stepOnce`: the tension-weighted average of the two boundary
candidates. -/
def bridgeCandidateD (sim : SympatheticStrings) : ℚ :=
  (sim.string1.tension * yWant sim.string1 (courantSq sim.string1 sim.dt) sim.dt
      + sim.string2.tension * yWant sim.string2 (courantSq sim.string2 sim.dt) sim.dt)
    / (sim.string1.tension + sim.string2.tension)

/-- The new bridge position of `stepOnce`: stiffness blend of candidate and
previous position, then the safety clamp to `[-1/2, 1/2]`. The source's
non-finite check cannot fire over exact ℚ, where every value is finite. -/
def newBridgeYD (sim : SympatheticStrings) : ℚ :=
  max (-(1/2)) (min (1/2)
    (sim.bridgeStiffness * bridgeCandidateD sim
      + (1 - sim.bridgeStiffness) * sim.bridgeY))

/-- Step 5 of `stepOnce` for one string: derived velocity, shift of the
displacement history, the diagnostic bridge force, then `computeEnergy`. -/
def commitString (s : StringState) (y_new : Fin NUM_POINTS → ℚ) (dt : ℚ) : StringState :=
  computeEnergy
    { s with
      v := fun i => (y_new i - s.y i) / dt
      y_prev := s.y
      y := y_new
      forceOnBridge := -s.tension * ((y_new lastIdx - y_new penultIdx) / dxQ) }

/-- Steps 1-5 of `stepOnce` plus the commit of time and step counters: the
whole step except the conditional history recording. -/
def commitSim (sim : SympatheticStrings) : SympatheticStrings :=
  let newBridgeY := newBridgeYD sim
  let y1_new := yNewFun sim.string1 (courantSq sim.string1 sim.dt) sim.dt newBridgeY
  let y2_new := yNewFun sim.string2 (courantSq sim.string2 sim.dt) sim.dt newBridgeY
  { sim with
    string1 := commitString sim.string1 y1_new sim.dt
    string2 := commitString sim.string2 y2_new sim.dt
    bridgeV := (newBridgeY - sim.bridgeY) / sim.dt
    bridgeY := newBridgeY
    time := sim.time + sim.dt
    stepCount := sim.stepCount + 1 }

/-- `SympatheticStrings::stepOnce`: one physics step, recording history every
100 completed steps. -/
def SympatheticStrings.stepOnce (sim : SympatheticStrings) : SympatheticStrings :=
  let sim' := commitSim sim
  if sim'.stepCount % 100 = 0 then sim'.recordHistory else sim'

/-- `SympatheticStrings::step(numSteps)`: `numSteps` sequential physics steps. -/
def SympatheticStrings.step (sim : SympatheticStrings) (numSteps : ℕ) : SympatheticStrings :=
  SympatheticStrings.stepOnce^[numSteps] sim

/-- `SympatheticStrings::setString1Frequency`, with the driver's clamp. -/
def SympatheticStrings.setString1Frequency (sim : SympatheticStrings) (freq : ℚ) :
    SympatheticStrings :=
  { sim with string1 := sim.string1.setFrequency (max 50 (min 1000 freq)) }

/-- `SympatheticStrings::setString2Frequency`, with the driver's clamp. -/
def SympatheticStrings.setString2Frequency (sim : SympatheticStrings) (freq : ℚ) :
    SympatheticStrings :=
  { sim with string2 := sim.string2.setFrequency (max 50 (min 1000 freq)) }

/-- `SympatheticStrings::setDamping`: clamped, applied to both strings. -/
def SympatheticStrings.setDamping (sim : SympatheticStrings) (d : ℚ) : SympatheticStrings :=
  let damping := max 0 (min (1/100) d)
  { sim with
    string1 := { sim.string1 with damping := damping }
    string2 := { sim.string2 with damping := damping } }

/-- `SympatheticStrings::setBridgeStiffness`: clamped to `[0, 1]`. -/
def SympatheticStrings.setBridgeStiffness (sim : SympatheticStrings) (s : ℚ) :
    SympatheticStrings :=
  { sim with bridgeStiffness := max 0 (min 1 s) }

/-- `SympatheticStrings::reset`: rebuild both strings at the default
frequencies and clear bridge state, counters and histories. `dt` is not
touched by `reset` (the constructor alone sets it). -/
def SympatheticStrings.reset (sim : SympatheticStrings) : SympatheticStrings :=
  { sim with
    string1 := StringState.mkDefault.setFrequency (26163/100)
    string2 := StringState.mkDefault.setFrequency 392
    bridgeY := 0
    bridgeV := 0
    bridgeStiffness := 1
    time := 0
    stepCount := 0
    energy1History := []
    energy2History := []
    bridgeHistory := [] }

/-- The states reachable from a freshly constructed simulation through the
public operations. -/
inductive Reachable : SympatheticStrings → Prop
  | init : Reachable SympatheticStrings.mkDefault
  | stepOnce {sim} : Reachable sim → Reachable sim.stepOnce
  | pluck {sim} (i : ℤ) (p a : ℚ) : Reachable sim → Reachable (sim.pluck i p a)
  | reset {sim} : Reachable sim → Reachable sim.reset
  | setF1 {sim} (f : ℚ) : Reachable sim → Reachable (sim.setString1Frequency f)
  | setF2 {sim} (f : ℚ) : Reachable sim → Reachable (sim.setString2Frequency f)
  | setDamping {sim} (d : ℚ) : Reachable sim → Reachable (sim.setDamping d)
  | setStiffness {sim} (s : ℚ) : Reachable sim → Reachable (sim.setBridgeStiffness s)

lemma yNewFun_last (s : StringState) (r_sq dt b : ℚ) :
    yNewFun s r_sq dt b lastIdx = b := rfl

lemma yNewFun_zero (s : StringState) (r_sq dt b : ℚ) :
    yNewFun s r_sq dt b ⟨0, by decide⟩ = 0 := rfl

lemma commitString_y (s : StringState) (y_new : Fin NUM_POINTS → ℚ) (dt : ℚ) :
    (commitString s y_new dt).y = y_new := rfl

lemma recordHistory_bridgeY (sim : SympatheticStrings) :
    sim.recordHistory.bridgeY = sim.bridgeY := by
  simp only [SympatheticStrings.recordHistory]
  split <;> rfl

lemma recordHistory_string1 (sim : SympatheticStrings) :
    sim.recordHistory.string1 = sim.string1 := by
  simp only [SympatheticStrings.recordHistory]
  split <;> rfl

lemma recordHistory_string2 (sim : SympatheticStrings) :
    sim.recordHistory.string2 = sim.string2 := by
  simp only [SympatheticStrings.recordHistory]
  split <;> rfl

lemma recordHistory_stepCount (sim : SympatheticStrings) :
    sim.recordHistory.stepCount = sim.stepCount := by
  simp only [SympatheticStrings.recordHistory]
  split <;> rfl

lemma recordHistory_dt (sim : SympatheticStrings) :
    sim.recordHistory.dt = sim.dt := by
  simp only [SympatheticStrings.recordHistory]
  split <;> rfl

lemma recordHistory_bridgeStiffness (sim : SympatheticStrings) :
    sim.recordHistory.bridgeStiffness = sim.bridgeStiffness := by
  simp only [SympatheticStrings.recordHistory]
  split <;> rfl

lemma stepOnce_bridgeY (sim : SympatheticStrings) :
    sim.stepOnce.bridgeY = newBridgeYD sim := by
  simp only [SympatheticStrings.stepOnce]
  split <;> simp [recordHistory_bridgeY, commitSim]

lemma stepOnce_string1 (sim : SympatheticStrings) :
    sim.stepOnce.string1 =
      commitString sim.string1
        (yNewFun sim.string1 (courantSq sim.string1 sim.dt) sim.dt (newBridgeYD sim))
        sim.dt := by
  simp only [SympatheticStrings.stepOnce]
  split <;> simp [recordHistory_string1, commitSim]

lemma stepOnce_string2 (sim : SympatheticStrings) :
    sim.stepOnce.string2 =
      commitString sim.string2
        (yNewFun sim.string2 (courantSq sim.string2 sim.dt) sim.dt (newBridgeYD sim))
        sim.dt := by
  simp only [SympatheticStrings.stepOnce]
  split <;> simp [recordHistory_string2, commitSim]

lemma stepOnce_stepCount (sim : SympatheticStrings) :
    sim.stepOnce.stepCount = sim.stepCount + 1 := by
  simp only [SympatheticStrings.stepOnce]
  split <;> simp [recordHistory_stepCount, commitSim]

lemma stepOnce_dt (sim : SympatheticStrings) :
    sim.stepOnce.dt = sim.dt := by
  simp only [SympatheticStrings.stepOnce]
  split <;> simp [recordHistory_dt, commitSim]

lemma stepOnce_bridgeStiffness (sim : SympatheticStrings) :
    sim.stepOnce.bridgeStiffness = sim.bridgeStiffness := by
  simp only [SympatheticStrings.stepOnce]
  split <;> simp [recordHistory_bridgeStiffness, commitSim]

/-- Claim C1: immediately after `stepOnce` (and hence after each physics step
inside `step(n)`, in particular after the last one when `n ≥ 1`), both
strings' rightmost sample `y[199]` and the reported bridge position are all
exactly equal. -/
theorem step_shares_bridge_sample (sim : SympatheticStrings) (n : ℕ) :
    (sim.stepOnce.string1.y lastIdx = sim.stepOnce.bridgeY
      ∧ sim.stepOnce.string2.y lastIdx = sim.stepOnce.bridgeY)
    ∧ (1 ≤ n →
      (sim.step n).string1.y lastIdx = (sim.step n).bridgeY
        ∧ (sim.step n).string2.y lastIdx = (sim.step n).bridgeY) := by
  have core : ∀ s : SympatheticStrings,
      s.stepOnce.string1.y lastIdx = s.stepOnce.bridgeY
        ∧ s.stepOnce.string2.y lastIdx = s.stepOnce.bridgeY := by
    intro s
    rw [stepOnce_string1, stepOnce_string2, stepOnce_bridgeY,
      commitString_y, commitString_y, yNewFun_last, yNewFun_last]
    exact ⟨rfl, rfl⟩
  refine ⟨core sim, fun hn => ?_⟩
  obtain ⟨m, rfl⟩ : ∃ m, n = m + 1 := ⟨n - 1, by omega⟩
  have : sim.step (m + 1) = (sim.step m).stepOnce := by
    simp [SympatheticStrings.step, Function.iterate_succ_apply']
  rw [this]
  exact core (sim.step m)

/-- Witness for C1 at the freshly constructed state with `n = 1`. -/
theorem step_shares_bridge_sample_witness :
    (SympatheticStrings.mkDefault.step 1).string1.y lastIdx
      = (SympatheticStrings.mkDefault.step 1).bridgeY := by
  exact ((step_shares_bridge_sample SympatheticStrings.mkDefault 1).2 (by norm_num)).1

def zeroIdx : Fin NUM_POINTS := ⟨0, by decide⟩

lemma pluckString_y (s : StringState) (p a : ℚ) :
    (s.pluckString p a).y = fun i =>
      if i.val = 0 then 0
      else pluckProfile (max (1/10) (min (9/10) p)) (max 0 (min 1 a)) i := rfl

lemma pluckString_y_zero (s : StringState) (p a : ℚ) :
    (s.pluckString p a).y zeroIdx = 0 := rfl

/-- Left-end invariant: in every reachable state both strings have `y[0] = 0`. -/
lemma y0_invariant {s : SympatheticStrings} (h : Reachable s) :
    s.string1.y zeroIdx = 0 ∧ s.string2.y zeroIdx = 0 := by
  induction h with
  | init => exact ⟨rfl, rfl⟩
  | stepOnce _ _ =>
    rename_i sim _ _
    rw [stepOnce_string1, stepOnce_string2, commitString_y, commitString_y]
    exact ⟨rfl, rfl⟩
  | pluck i p a _ ih =>
    rename_i sim _
    simp only [SympatheticStrings.pluck]
    split
    · exact ⟨pluckString_y_zero _ _ _, ih.2⟩
    · exact ⟨ih.1, pluckString_y_zero _ _ _⟩
  | reset _ _ => exact ⟨rfl, rfl⟩
  | setF1 f _ ih => exact ih
  | setF2 f _ ih => exact ih
  | setDamping d _ ih => exact ih
  | setStiffness s _ ih => exact ih

/-- Claim C2: each interior sample `i ∈ 1..198` of both strings is advanced by
the explicit wave-equation update
`2·y[i] − y_prev[i] + r²·(y[i+1] − 2·y[i] + y[i−1]) − damping·dt·v[i]`
with `v[i] = (y[i] − y_prev[i])/dt` and `r² = courantSq = (waveSpeed·dt/dx)²`,
`dx = 1/199`; and in every reachable state the left boundary sample of both
strings is 0. -/
theorem interior_update_and_left_boundary (sim : SympatheticStrings)
    (i : Fin NUM_POINTS) (h1 : 1 ≤ i.val) (h2 : i.val ≤ 198) :
    (sim.stepOnce.string1.y i =
        2 * sim.string1.y i - sim.string1.y_prev i
          + courantSq sim.string1 sim.dt
              * (sim.string1.y ⟨i.val + 1, by simp only [NUM_POINTS]; omega⟩
                  - 2 * sim.string1.y i
                  + sim.string1.y ⟨i.val - 1, by simp only [NUM_POINTS]; omega⟩)
          - sim.string1.damping * sim.dt
              * ((sim.string1.y i - sim.string1.y_prev i) / sim.dt))
    ∧ (sim.stepOnce.string2.y i =
        2 * sim.string2.y i - sim.string2.y_prev i
          + courantSq sim.string2 sim.dt
              * (sim.string2.y ⟨i.val + 1, by simp only [NUM_POINTS]; omega⟩
                  - 2 * sim.string2.y i
                  + sim.string2.y ⟨i.val - 1, by simp only [NUM_POINTS]; omega⟩)
          - sim.string2.damping * sim.dt
              * ((sim.string2.y i - sim.string2.y_prev i) / sim.dt))
    ∧ (∀ s : SympatheticStrings, Reachable s →
        s.string1.y zeroIdx = 0 ∧ s.string2.y zeroIdx = 0) := by
  have hne0 : ¬ i.val = 0 := by omega
  have hneN : ¬ i.val = NUM_POINTS - 1 := by simp only [NUM_POINTS]; omega
  refine ⟨?_, ?_, fun s hs => y0_invariant hs⟩
  · rw [stepOnce_string1, commitString_y]
    simp only [yNewFun, hne0, hneN, if_false, dite_false]
  · rw [stepOnce_string2, commitString_y]
    simp only [yNewFun, hne0, hneN, if_false, dite_false]

/-- Witness for C2 at the freshly constructed state and interior index 1. -/
theorem interior_update_and_left_boundary_witness :
    SympatheticStrings.mkDefault.stepOnce.string1.y ⟨1, by decide⟩ =
        2 * SympatheticStrings.mkDefault.string1.y ⟨1, by decide⟩
          - SympatheticStrings.mkDefault.string1.y_prev ⟨1, by decide⟩
          + courantSq SympatheticStrings.mkDefault.string1 SympatheticStrings.mkDefault.dt
              * (SympatheticStrings.mkDefault.string1.y ⟨2, by decide⟩
                  - 2 * SympatheticStrings.mkDefault.string1.y ⟨1, by decide⟩
                  + SympatheticStrings.mkDefault.string1.y ⟨0, by decide⟩)
          - SympatheticStrings.mkDefault.string1.damping * SympatheticStrings.mkDefault.dt
              * ((SympatheticStrings.mkDefault.string1.y ⟨1, by decide⟩
                  - SympatheticStrings.mkDefault.string1.y_prev ⟨1, by decide⟩)
                / SympatheticStrings.mkDefault.dt) := by
  exact (interior_update_and_left_boundary SympatheticStrings.mkDefault
    ⟨1, by decide⟩ (by decide) (by decide)).1

/-- Claim C3: the new bridge position is the clamp to `[-1/2, 1/2]` of the
stiffness blend of the tension-weighted average of the two boundary
candidates, each candidate using the interior update with the missing outside
neighbor replaced by the boundary sample itself, so its Laplacian term is
`r²·(y[N−2] − y[N−1])`. Over the exact-rational model every value is finite,
so the source's non-finite fallback to 0 never fires and no error is raised
or reported. -/
theorem bridge_position_formula (sim : SympatheticStrings) :
    sim.stepOnce.bridgeY =
      max (-(1/2)) (min (1/2)
        (sim.bridgeStiffness *
            ((sim.string1.tension *
                (2 * sim.string1.y lastIdx - sim.string1.y_prev lastIdx
                  + courantSq sim.string1 sim.dt
                      * (sim.string1.y penultIdx - sim.string1.y lastIdx)
                  - sim.string1.damping * sim.dt
                      * ((sim.string1.y lastIdx - sim.string1.y_prev lastIdx) / sim.dt))
              + sim.string2.tension *
                (2 * sim.string2.y lastIdx - sim.string2.y_prev lastIdx
                  + courantSq sim.string2 sim.dt
                      * (sim.string2.y penultIdx - sim.string2.y lastIdx)
                  - sim.string2.damping * sim.dt
                      * ((sim.string2.y lastIdx - sim.string2.y_prev lastIdx) / sim.dt)))
              / (sim.string1.tension + sim.string2.tension))
          + (1 - sim.bridgeStiffness) * sim.bridgeY)) := by
  rw [stepOnce_bridgeY]
  unfold newBridgeYD bridgeCandidateD yWant
  congr 2
  ring

lemma clamp_position_bounds (p : ℚ) :
    1/10 ≤ max (1/10) (min (9/10) p) ∧ max (1/10) (min (9/10) p) ≤ 9/10 := by
  constructor
  · exact le_max_left _ _
  · exact max_le (by norm_num) (min_le_left _ _)

lemma clamp_amplitude_bounds (a : ℚ) :
    0 ≤ max 0 (min 1 a) ∧ max 0 (min 1 a) ≤ 1 := by
  constructor
  · exact le_max_left _ _
  · exact max_le (by norm_num) (min_le_left _ _)

/-- The triangular profile vanishes at the bridge end `x = 1` whenever the
peak position is below 1. -/
lemma pluckProfile_last (p a : ℚ) (hp : p < 1) : pluckProfile p a lastIdx = 0 := by
  have hx : ((lastIdx.val : ℕ) : ℚ) / ((NUM_POINTS : ℚ) - 1) = 1 := by
    norm_num [lastIdx, NUM_POINTS]
  simp only [pluckProfile, hx]
  rw [if_neg (by linarith)]
  ring

lemma pluckString_y_last (s : StringState) (p a : ℚ) :
    (s.pluckString p a).y lastIdx = 0 := by
  rw [pluckString_y]
  simp only
  rw [if_neg (by decide)]
  exact pluckProfile_last _ _ (lt_of_le_of_lt (clamp_position_bounds p).2 (by norm_num))

lemma pluckString_y_prev (s : StringState) (p a : ℚ) :
    (s.pluckString p a).y_prev = (s.pluckString p a).y := rfl

lemma pluck_zero_string1 (sim : SympatheticStrings) (p a : ℚ) :
    (sim.pluck 0 p a).string1 = sim.string1.pluckString p a := rfl

lemma pluck_zero_string2 (sim : SympatheticStrings) (p a : ℚ) :
    (sim.pluck 0 p a).string2 = sim.string2 := rfl

/-- A state whose string 1 holds a nonzero bridge-end sample. -/
def bentState : SympatheticStrings :=
  { SympatheticStrings.mkDefault with
    string1 := { SympatheticStrings.mkDefault.string1 with
      y := fun i => if i.val = NUM_POINTS - 1 then 1 else 0 } }

/-- Counterexample to C4 as stated: from a state whose string 1 has
`y[199] = 1`, `pluck(0, 1/2, 1/2)` changes the bridge-end sample (to 0). -/
theorem pluck_moves_bridge_sample :
    ¬ ((bentState.pluck 0 (1/2) (1/2)).string1.y lastIdx
        = bentState.string1.y lastIdx) := by
  rw [pluck_zero_string1, pluckString_y_last]
  decide

/-- Claim C4 amended: `pluck` writes the triangular profile into every sample
of the selected string, and the profile is 0 at the bridge end `x = 1`; so the
selected string's `y[199]` and `y_prev[199]` are set to 0 (overwriting any
previous value) rather than left unchanged, while the other string's
bridge-end samples are untouched; the next step then overwrites `y[199]` via
the bridge constraint. -/
theorem pluck_bridge_sample_effect (sim : SympatheticStrings) (idx : ℤ) (p a : ℚ) :
    ((sim.pluck idx p a).string1.y lastIdx
        = if idx = 0 then 0 else sim.string1.y lastIdx)
    ∧ ((sim.pluck idx p a).string1.y_prev lastIdx
        = if idx = 0 then 0 else sim.string1.y_prev lastIdx)
    ∧ ((sim.pluck idx p a).string2.y lastIdx
        = if idx = 0 then sim.string2.y lastIdx else 0)
    ∧ ((sim.pluck idx p a).string2.y_prev lastIdx
        = if idx = 0 then sim.string2.y_prev lastIdx else 0) := by
  by_cases h : idx = 0
  · subst h
    simp only [SympatheticStrings.pluck, eq_self_iff_true, if_true]
    exact ⟨pluckString_y_last sim.string1 p a, pluckString_y_last sim.string1 p a, trivial, trivial⟩
  · simp only [SympatheticStrings.pluck, if_neg h]
    exact ⟨trivial, trivial, pluckString_y_last sim.string2 p a, pluckString_y_last sim.string2 p a⟩

lemma num_points_cast : ((NUM_POINTS : ℚ) - 1) = 199 := by norm_num [NUM_POINTS]

/-- The full effect of the pluck routine on the targeted string: triangular
profile, `y_prev = y`, zero velocity, zero left boundary, amplitude bound,
and immediately recomputed energies. -/
lemma pluckString_spec (st : StringState) (p₀ a₀ : ℚ) :
    (∀ i : Fin NUM_POINTS,
        (st.pluckString p₀ a₀).y i =
          if (i.val : ℚ) / 199 < max (1/10) (min (9/10) p₀) then
            max 0 (min 1 a₀) * ((i.val : ℚ) / 199) / max (1/10) (min (9/10) p₀)
          else
            max 0 (min 1 a₀) * (1 - (i.val : ℚ) / 199)
              / (1 - max (1/10) (min (9/10) p₀)))
    ∧ (∀ i, (st.pluckString p₀ a₀).y_prev i = (st.pluckString p₀ a₀).y i)
    ∧ (∀ i, (st.pluckString p₀ a₀).v i = 0)
    ∧ (st.pluckString p₀ a₀).y zeroIdx = 0
    ∧ (st.pluckString p₀ a₀).y_prev zeroIdx = 0
    ∧ (∀ i, |(st.pluckString p₀ a₀).y i| ≤ max 0 (min 1 a₀))
    ∧ (st.pluckString p₀ a₀).kineticEnergy = keFormula (st.pluckString p₀ a₀)
    ∧ (st.pluckString p₀ a₀).kineticEnergy = 0
    ∧ (st.pluckString p₀ a₀).potentialEnergy = peFormula (st.pluckString p₀ a₀)
    ∧ (st.pluckString p₀ a₀).totalEnergy =
        (st.pluckString p₀ a₀).kineticEnergy + (st.pluckString p₀ a₀).potentialEnergy := by
  have hp1 := (clamp_position_bounds p₀).1
  have hp2 := (clamp_position_bounds p₀).2
  have ha1 := (clamp_amplitude_bounds a₀).1
  have ha2 := (clamp_amplitude_bounds a₀).2
  set p := max (1/10) (min (9/10) p₀) with hp
  set a := max 0 (min 1 a₀) with ha
  have hppos : 0 < p := lt_of_lt_of_le (by norm_num) hp1
  have hqpos : 0 < 1 - p := by linarith
  have hyfun : (st.pluckString p₀ a₀).y = fun i =>
      if i.val = 0 then 0 else pluckProfile p a i := pluckString_y st p₀ a₀
  have hyform : ∀ i : Fin NUM_POINTS,
      (st.pluckString p₀ a₀).y i =
        if (i.val : ℚ) / 199 < p then a * ((i.val : ℚ) / 199) / p
        else a * (1 - (i.val : ℚ) / 199) / (1 - p) := by
    intro i
    rw [hyfun]
    simp only [pluckProfile, num_points_cast]
    by_cases h0 : i.val = 0
    · rw [if_pos h0, h0]
      norm_num
      rw [if_pos hppos]
    · rw [if_neg h0]
  have hbound : ∀ i : Fin NUM_POINTS, |(st.pluckString p₀ a₀).y i| ≤ a := by
    intro i
    have hx0 : (0 : ℚ) ≤ (i.val : ℚ) / 199 := by positivity
    have hx1 : (i.val : ℚ) / 199 ≤ 1 := by
      rw [div_le_one (by norm_num)]
      exact_mod_cast Nat.le_of_lt_succ (by simp only [NUM_POINTS] at *; exact i.isLt)
    rw [hyform i]
    by_cases hc : (i.val : ℚ) / 199 < p
    · rw [if_pos hc, abs_of_nonneg (by positivity)]
      rw [div_le_iff₀ hppos]
      exact mul_le_mul_of_nonneg_left (le_of_lt hc) ha1
    · rw [if_neg hc,
        abs_of_nonneg (div_nonneg (mul_nonneg ha1 (by linarith)) (le_of_lt hqpos))]
      rw [div_le_iff₀ hqpos]
      have hxp : p ≤ (i.val : ℚ) / 199 := le_of_not_lt hc
      exact mul_le_mul_of_nonneg_left (by linarith) ha1
  refine ⟨hyform, fun i => rfl, fun i => rfl, ?_, ?_, hbound, rfl, ?_, rfl, rfl⟩
  · exact pluckString_y_zero st p₀ a₀
  · exact pluckString_y_zero st p₀ a₀
  · simp [StringState.pluckString, computeEnergy, keFormula]

/-- Claim C5: after `pluck(stringIndex, position, amplitude)` with `p` the
position clamped to `[1/10, 9/10]` and `a` the amplitude clamped to `[0, 1]`,
the selected string (string 1 for index 0, string 2 for any other index)
carries the triangular profile `a·x/p` below the peak and `a·(1−x)/(1−p)`
from the peak on (`x = i/199`), with `y_prev = y`, zero velocity, zero left
boundary, every sample bounded by `a` in absolute value, and energies
recomputed immediately (so the kinetic energy is 0). -/
theorem pluck_triangular_profile (sim : SympatheticStrings) (idx : ℤ) (p₀ a₀ : ℚ) :
    (idx = 0 →
      (∀ i : Fin NUM_POINTS,
          (sim.pluck idx p₀ a₀).string1.y i =
            if (i.val : ℚ) / 199 < max (1/10) (min (9/10) p₀) then
              max 0 (min 1 a₀) * ((i.val : ℚ) / 199) / max (1/10) (min (9/10) p₀)
            else
              max 0 (min 1 a₀) * (1 - (i.val : ℚ) / 199)
                / (1 - max (1/10) (min (9/10) p₀)))
      ∧ (∀ i, (sim.pluck idx p₀ a₀).string1.y_prev i = (sim.pluck idx p₀ a₀).string1.y i)
      ∧ (∀ i, (sim.pluck idx p₀ a₀).string1.v i = 0)
      ∧ (sim.pluck idx p₀ a₀).string1.y zeroIdx = 0
      ∧ (sim.pluck idx p₀ a₀).string1.y_prev zeroIdx = 0
      ∧ (∀ i, |(sim.pluck idx p₀ a₀).string1.y i| ≤ max 0 (min 1 a₀))
      ∧ (sim.pluck idx p₀ a₀).string1.kineticEnergy
          = keFormula (sim.pluck idx p₀ a₀).string1
      ∧ (sim.pluck idx p₀ a₀).string1.kineticEnergy = 0
      ∧ (sim.pluck idx p₀ a₀).string1.potentialEnergy
          = peFormula (sim.pluck idx p₀ a₀).string1
      ∧ (sim.pluck idx p₀ a₀).string1.totalEnergy =
          (sim.pluck idx p₀ a₀).string1.kineticEnergy
            + (sim.pluck idx p₀ a₀).string1.potentialEnergy)
    ∧ (idx ≠ 0 →
      (∀ i : Fin NUM_POINTS,
          (sim.pluck idx p₀ a₀).string2.y i =
            if (i.val : ℚ) / 199 < max (1/10) (min (9/10) p₀) then
              max 0 (min 1 a₀) * ((i.val : ℚ) / 199) / max (1/10) (min (9/10) p₀)
            else
              max 0 (min 1 a₀) * (1 - (i.val : ℚ) / 199)
                / (1 - max (1/10) (min (9/10) p₀)))
      ∧ (∀ i, (sim.pluck idx p₀ a₀).string2.y_prev i = (sim.pluck idx p₀ a₀).string2.y i)
      ∧ (∀ i, (sim.pluck idx p₀ a₀).string2.v i = 0)
      ∧ (sim.pluck idx p₀ a₀).string2.y zeroIdx = 0
      ∧ (sim.pluck idx p₀ a₀).string2.y_prev zeroIdx = 0
      ∧ (∀ i, |(sim.pluck idx p₀ a₀).string2.y i| ≤ max 0 (min 1 a₀))
      ∧ (sim.pluck idx p₀ a₀).string2.kineticEnergy
          = keFormula (sim.pluck idx p₀ a₀).string2
      ∧ (sim.pluck idx p₀ a₀).string2.kineticEnergy = 0
      ∧ (sim.pluck idx p₀ a₀).string2.potentialEnergy
          = peFormula (sim.pluck idx p₀ a₀).string2
      ∧ (sim.pluck idx p₀ a₀).string2.totalEnergy =
          (sim.pluck idx p₀ a₀).string2.kineticEnergy
            + (sim.pluck idx p₀ a₀).string2.potentialEnergy) := by
  constructor
  · intro h
    subst h
    have e : (sim.pluck 0 p₀ a₀).string1 = sim.string1.pluckString p₀ a₀ := rfl
    rw [e]
    exact pluckString_spec sim.string1 p₀ a₀
  · intro h
    have e : (sim.pluck idx p₀ a₀).string2 = sim.string2.pluckString p₀ a₀ := by
      simp only [SympatheticStrings.pluck, if_neg h]
    rw [e]
    exact pluckString_spec sim.string2 p₀ a₀

/-- Witness for C5: both index branches at the freshly constructed state,
index 0 (string 1) and index 1 (string 2). -/
theorem pluck_triangular_profile_witness :
    (SympatheticStrings.mkDefault.pluck 0 (1/2) 1).string1.kineticEnergy = 0
      ∧ (SympatheticStrings.mkDefault.pluck 1 (1/2) 1).string2.kineticEnergy = 0 :=
  ⟨((pluck_triangular_profile SympatheticStrings.mkDefault 0 (1/2) 1).1
      rfl).2.2.2.2.2.2.2.1,
    ((pluck_triangular_profile SympatheticStrings.mkDefault 1 (1/2) 1).2
      (by decide)).2.2.2.2.2.2.2.1⟩
lemma dxQ_pos : 0 < dxQ := by norm_num [dxQ, NUM_POINTS]

lemma keFormula_nonneg (st : StringState) (hρ : 0 ≤ st.density) : 0 ≤ keFormula st := by
  refine Finset.sum_nonneg fun i _ => ?_
  have : 1/2 * st.density * dxQ * st.v i * st.v i
      = (1/2 * st.density * dxQ) * (st.v i * st.v i) := by ring
  rw [this]
  exact mul_nonneg
    (mul_nonneg (mul_nonneg (by norm_num) hρ) (le_of_lt dxQ_pos))
    (mul_self_nonneg _)

lemma peFormula_nonneg (st : StringState) (hT : 0 ≤ st.tension) : 0 ≤ peFormula st := by
  refine Finset.sum_nonneg fun i _ => ?_
  by_cases h : i.val < NUM_POINTS - 1
  · rw [dif_pos h]
    have : 1/2 * st.tension * ((st.y ⟨i.val + 1, by omega⟩ - st.y i) / dxQ)
          * ((st.y ⟨i.val + 1, by omega⟩ - st.y i) / dxQ) * dxQ
        = (1/2 * st.tension * dxQ)
          * (((st.y ⟨i.val + 1, by omega⟩ - st.y i) / dxQ)
            * ((st.y ⟨i.val + 1, by omega⟩ - st.y i) / dxQ)) := by ring
    rw [this]
    exact mul_nonneg
      (mul_nonneg (mul_nonneg (by norm_num) hT) (le_of_lt dxQ_pos))
      (mul_self_nonneg _)
  · rw [dif_neg h]

/-- The physically meaningful sign conditions that every reachable string
satisfies. -/
def GoodString (st : StringState) : Prop :=
  0 ≤ st.density ∧ 0 ≤ st.tension ∧ 0 ≤ st.kineticEnergy ∧ 0 ≤ st.potentialEnergy

lemma goodString_setFrequency {st : StringState} (h : GoodString st) (f : ℚ) :
    GoodString (st.setFrequency f) := by
  obtain ⟨hρ, hT, hke, hpe⟩ := h
  refine ⟨hρ, ?_, hke, hpe⟩
  show 0 ≤ 4 * st.density * st.length * st.length * f * f
  have : 4 * st.density * st.length * st.length * f * f
      = 4 * st.density * (st.length * st.length) * (f * f) := by ring
  rw [this]
  exact mul_nonneg (mul_nonneg (by linarith) (mul_self_nonneg _)) (mul_self_nonneg _)

lemma goodString_computeEnergy {st : StringState} (hρ : 0 ≤ st.density)
    (hT : 0 ≤ st.tension) : GoodString (computeEnergy st) :=
  ⟨hρ, hT, keFormula_nonneg st hρ, peFormula_nonneg st hT⟩

lemma goodString_commit {st : StringState} (h : GoodString st)
    (y_new : Fin NUM_POINTS → ℚ) (dt : ℚ) : GoodString (commitString st y_new dt) :=
  goodString_computeEnergy h.1 h.2.1

lemma goodString_pluckString {st : StringState} (h : GoodString st) (p a : ℚ) :
    GoodString (st.pluckString p a) :=
  goodString_computeEnergy h.1 h.2.1

lemma goodString_mkDefault : GoodString (StringState.mkDefault.setFrequency (26163/100)) :=
  goodString_setFrequency ⟨by norm_num [StringState.mkDefault],
    by norm_num [StringState.mkDefault], by norm_num [StringState.mkDefault],
    by norm_num [StringState.mkDefault]⟩ _

lemma goodString_mkDefault2 : GoodString (StringState.mkDefault.setFrequency 392) :=
  goodString_setFrequency ⟨by norm_num [StringState.mkDefault],
    by norm_num [StringState.mkDefault], by norm_num [StringState.mkDefault],
    by norm_num [StringState.mkDefault]⟩ _

/-- Every reachable state has physically sensible strings. -/
lemma reachable_goodStrings {s : SympatheticStrings} (h : Reachable s) :
    GoodString s.string1 ∧ GoodString s.string2 := by
  induction h with
  | init => exact ⟨goodString_mkDefault, goodString_mkDefault2⟩
  | stepOnce _ ih =>
    rename_i sim _
    rw [stepOnce_string1, stepOnce_string2]
    exact ⟨goodString_commit ih.1 _ _, goodString_commit ih.2 _ _⟩
  | pluck i p a _ ih =>
    rename_i sim _
    simp only [SympatheticStrings.pluck]
    split
    · exact ⟨goodString_pluckString ih.1 _ _, ih.2⟩
    · exact ⟨ih.1, goodString_pluckString ih.2 _ _⟩
  | reset _ _ => exact ⟨goodString_mkDefault, goodString_mkDefault2⟩
  | setF1 f _ ih => exact ⟨goodString_setFrequency ih.1 _, ih.2⟩
  | setF2 f _ ih => exact ⟨ih.1, goodString_setFrequency ih.2 _⟩
  | setDamping d _ ih => exact ih
  | setStiffness s _ ih => exact ih

/-- The tension-independent part of the potential-energy sum. -/
def strainSum (yf : Fin NUM_POINTS → ℚ) : ℚ :=
  ∑ i : Fin NUM_POINTS,
    if h : i.val < NUM_POINTS - 1 then
      ((yf ⟨i.val + 1, by omega⟩ - yf i) / dxQ) * ((yf ⟨i.val + 1, by omega⟩ - yf i) / dxQ)
        * dxQ
    else 0

lemma peFormula_factor (st : StringState) :
    peFormula st = 1/2 * st.tension * strainSum st.y := by
  unfold peFormula strainSum
  rw [Finset.mul_sum]
  refine Finset.sum_congr rfl fun i _ => ?_
  by_cases h : i.val < NUM_POINTS - 1
  · rw [dif_pos h, dif_pos h]
    ring
  · rw [dif_neg h, dif_neg h, mul_zero]

lemma strainSum_nonneg_terms (yf : Fin NUM_POINTS → ℚ) (i : Fin NUM_POINTS) :
    0 ≤ (if h : i.val < NUM_POINTS - 1 then
      ((yf ⟨i.val + 1, by omega⟩ - yf i) / dxQ) * ((yf ⟨i.val + 1, by omega⟩ - yf i) / dxQ)
        * dxQ
    else 0) := by
  by_cases h : i.val < NUM_POINTS - 1
  · rw [dif_pos h]
    exact mul_nonneg (mul_self_nonneg _) (le_of_lt dxQ_pos)
  · rw [dif_neg h]

/-- The sequence of operations that makes a non-plucked string's stored
potential energy stale: pluck string 2, change its frequency (hence tension),
then pluck string 1. -/
def staleSim : SympatheticStrings :=
  ((SympatheticStrings.mkDefault.pluck 1 (1/2) 1).setString2Frequency 100).pluck 0 (1/2) 1

/-- Counterexample to C6 as stated: immediately after the final pluck (of
string 1), string 2's stored potential energy was computed with its old
tension and differs from the claim's sum evaluated with its current
tension. -/
theorem stale_energy_after_pluck :
    ¬ (staleSim.string2.potentialEnergy = peFormula staleSim.string2) := by
  have hs2 : staleSim.string2
      = (SympatheticStrings.mkDefault.string2.pluckString (1/2) 1).setFrequency
          (max 50 (min 1000 100)) := rfl
  have hfc : (max (50:ℚ) (min 1000 100)) = 100 := by
    rw [min_eq_right (by norm_num), max_eq_right (by norm_num)]
  -- names for the profile-updated inner string
  set A := SympatheticStrings.mkDefault.string2.pluckString (1/2) 1 with hA
  -- stored potential energy: computed by the first pluck with the old tension
  have hstored : staleSim.string2.potentialEnergy = 1/2 * (76832/125) * strainSum A.y := by
    rw [hs2]
    show A.potentialEnergy = 1/2 * (76832/125) * strainSum A.y
    have : A.potentialEnergy = peFormula { SympatheticStrings.mkDefault.string2 with
        y := A.y, y_prev := A.y_prev, v := A.v } := rfl
    rw [this, peFormula_factor]
    norm_num [SympatheticStrings.mkDefault, StringState.mkDefault, StringState.setFrequency]
  -- the claim's sum, with the current (new) tension
  have hclaim : peFormula staleSim.string2 = 1/2 * 40 * strainSum A.y := by
    rw [hs2, peFormula_factor]
    have hT : ((SympatheticStrings.mkDefault.string2.pluckString (1/2) 1).setFrequency
        (max 50 (min 1000 100))).tension = 40 := by
      rw [hfc]
      show 4 * A.density * A.length * A.length * 100 * 100 = 40
      have hd : A.density = 1/1000 := rfl
      have hl : A.length = 1 := rfl
      rw [hd, hl]
      norm_num
    rw [hT]
    rfl
  -- the strain sum is strictly positive: the first strain is 2/dx = 398 ≠ 0
  have hS : 0 < strainSum A.y := by
    refine Finset.sum_pos' (fun i _ => strainSum_nonneg_terms A.y i) ⟨zeroIdx, Finset.mem_univ _, ?_⟩
    rw [dif_pos (by decide : (zeroIdx.val) < NUM_POINTS - 1)]
    have h0 : A.y zeroIdx = 0 := pluckString_y_zero _ _ _
    have h1 : A.y ⟨zeroIdx.val + 1, by decide⟩ = 2/199 := by
      rw [hA, pluckString_y]
      simp only
      rw [if_neg (by decide)]
      unfold pluckProfile
      simp only [num_points_cast]
      rw [min_eq_right (by norm_num), max_eq_right (by norm_num),
        min_eq_right (by norm_num), max_eq_right (by norm_num)]
      rw [if_pos (by norm_num [show zeroIdx.val = 0 from rfl])]
      norm_num [show zeroIdx.val = 0 from rfl]
    rw [h0, h1]
    norm_num [dxQ, NUM_POINTS]
  intro heq
  rw [hstored, hclaim] at heq
  have : (76832/125 - 40 : ℚ) * (1/2 * strainSum A.y) = 0 := by linarith
  rcases mul_eq_zero.mp this with h | h
  · norm_num at h
  · linarith

lemma pluck_ne_string2 (sim : SympatheticStrings) {idx : ℤ} (h : idx ≠ 0) (p a : ℚ) :
    (sim.pluck idx p a).string2 = sim.string2.pluckString p a := by
  simp only [SympatheticStrings.pluck, if_neg h]

/-- Claim C6 amended: after every step both strings' stored energies equal the
claimed sums over their current fields; after every pluck the plucked string's
do (the other string's stored energies are left untouched and may be stale if
its tension changed since they were last computed); and in every reachable
state kinetic and potential energies are nonnegative. -/
theorem energy_bookkeeping (sim : SympatheticStrings) (idx : ℤ) (p a : ℚ) :
    (sim.stepOnce.string1.kineticEnergy = keFormula sim.stepOnce.string1
      ∧ sim.stepOnce.string1.potentialEnergy = peFormula sim.stepOnce.string1
      ∧ sim.stepOnce.string1.totalEnergy
          = sim.stepOnce.string1.kineticEnergy + sim.stepOnce.string1.potentialEnergy
      ∧ sim.stepOnce.string2.kineticEnergy = keFormula sim.stepOnce.string2
      ∧ sim.stepOnce.string2.potentialEnergy = peFormula sim.stepOnce.string2
      ∧ sim.stepOnce.string2.totalEnergy
          = sim.stepOnce.string2.kineticEnergy + sim.stepOnce.string2.potentialEnergy)
    ∧ (idx = 0 →
        (sim.pluck idx p a).string1.kineticEnergy = keFormula (sim.pluck idx p a).string1
          ∧ (sim.pluck idx p a).string1.potentialEnergy
              = peFormula (sim.pluck idx p a).string1
          ∧ (sim.pluck idx p a).string1.totalEnergy
              = (sim.pluck idx p a).string1.kineticEnergy
                + (sim.pluck idx p a).string1.potentialEnergy)
    ∧ (idx ≠ 0 →
        (sim.pluck idx p a).string2.kineticEnergy = keFormula (sim.pluck idx p a).string2
          ∧ (sim.pluck idx p a).string2.potentialEnergy
              = peFormula (sim.pluck idx p a).string2
          ∧ (sim.pluck idx p a).string2.totalEnergy
              = (sim.pluck idx p a).string2.kineticEnergy
                + (sim.pluck idx p a).string2.potentialEnergy)
    ∧ (∀ s : SympatheticStrings, Reachable s →
        0 ≤ s.string1.kineticEnergy ∧ 0 ≤ s.string1.potentialEnergy
          ∧ 0 ≤ s.string2.kineticEnergy ∧ 0 ≤ s.string2.potentialEnergy) := by
  refine ⟨?_, ?_, ?_, ?_⟩
  · rw [stepOnce_string1, stepOnce_string2]
    exact ⟨rfl, rfl, rfl, rfl, rfl, rfl⟩
  · intro h
    subst h
    rw [pluck_zero_string1]
    exact ⟨rfl, rfl, rfl⟩
  · intro h
    rw [pluck_ne_string2 sim h]
    exact ⟨rfl, rfl, rfl⟩
  · intro s hs
    obtain ⟨⟨_, _, hk1, hp1⟩, ⟨_, _, hk2, hp2⟩⟩ := reachable_goodStrings hs
    exact ⟨hk1, hp1, hk2, hp2⟩

/-- Witness for C6: the two pluck branches at indices 0 and 1 and the
nonnegativity at the freshly constructed state. -/
theorem energy_bookkeeping_witness :
    (SympatheticStrings.mkDefault.pluck 0 (1/2) 1).string1.kineticEnergy
        = keFormula (SympatheticStrings.mkDefault.pluck 0 (1/2) 1).string1
      ∧ (SympatheticStrings.mkDefault.pluck 1 (1/2) 1).string2.kineticEnergy
          = keFormula (SympatheticStrings.mkDefault.pluck 1 (1/2) 1).string2
      ∧ 0 ≤ SympatheticStrings.mkDefault.string1.kineticEnergy :=
  ⟨((energy_bookkeeping SympatheticStrings.mkDefault 0 (1/2) 1).2.1 rfl).1,
    ((energy_bookkeeping SympatheticStrings.mkDefault 1 (1/2) 1).2.2.1 (by decide)).1,
    ((energy_bookkeeping SympatheticStrings.mkDefault 0 (1/2) 1).2.2.2
      SympatheticStrings.mkDefault Reachable.init).1⟩

lemma stepOnce_def (sim : SympatheticStrings) :
    sim.stepOnce =
      if (sim.stepCount + 1) % 100 = 0 then (commitSim sim).recordHistory
      else commitSim sim := rfl

lemma recordHistory_energy1History (sim : SympatheticStrings) :
    sim.recordHistory.energy1History =
      (if HISTORY_LENGTH ≤ sim.energy1History.length then sim.energy1History.drop 1
        else sim.energy1History) ++ [sim.string1.totalEnergy] := by
  simp only [SympatheticStrings.recordHistory]
  split
  · rfl
  · rfl

lemma recordHistory_energy2History (sim : SympatheticStrings) :
    sim.recordHistory.energy2History =
      (if HISTORY_LENGTH ≤ sim.energy1History.length then sim.energy2History.drop 1
        else sim.energy2History) ++ [sim.string2.totalEnergy] := by
  simp only [SympatheticStrings.recordHistory]
  split
  · rfl
  · rfl

lemma recordHistory_bridgeHistory (sim : SympatheticStrings) :
    sim.recordHistory.bridgeHistory =
      (if HISTORY_LENGTH ≤ sim.energy1History.length then sim.bridgeHistory.drop 1
        else sim.bridgeHistory) ++ [sim.bridgeY] := by
  simp only [SympatheticStrings.recordHistory]
  split
  · rfl
  · rfl

lemma stepOnce_energy1History (sim : SympatheticStrings) :
    sim.stepOnce.energy1History =
      if (sim.stepCount + 1) % 100 = 0 then
        (if HISTORY_LENGTH ≤ sim.energy1History.length then sim.energy1History.drop 1
          else sim.energy1History) ++ [(commitSim sim).string1.totalEnergy]
      else sim.energy1History := by
  rw [stepOnce_def]
  split
  · rw [recordHistory_energy1History]
    rfl
  · rfl

lemma stepOnce_energy2History (sim : SympatheticStrings) :
    sim.stepOnce.energy2History =
      if (sim.stepCount + 1) % 100 = 0 then
        (if HISTORY_LENGTH ≤ sim.energy1History.length then sim.energy2History.drop 1
          else sim.energy2History) ++ [(commitSim sim).string2.totalEnergy]
      else sim.energy2History := by
  rw [stepOnce_def]
  split
  · rw [recordHistory_energy2History]
    rfl
  · rfl

lemma stepOnce_bridgeHistory (sim : SympatheticStrings) :
    sim.stepOnce.bridgeHistory =
      if (sim.stepCount + 1) % 100 = 0 then
        (if HISTORY_LENGTH ≤ sim.energy1History.length then sim.bridgeHistory.drop 1
          else sim.bridgeHistory) ++ [(commitSim sim).bridgeY]
      else sim.bridgeHistory := by
  rw [stepOnce_def]
  split
  · rw [recordHistory_bridgeHistory]
    rfl
  · rfl

lemma newBridgeYD_stiffness_zero (sim : SympatheticStrings)
    (hs : sim.bridgeStiffness = 0) (h1 : -(1/2) ≤ sim.bridgeY) (h2 : sim.bridgeY ≤ 1/2) :
    newBridgeYD sim = sim.bridgeY := by
  unfold newBridgeYD
  rw [hs]
  rw [zero_mul, zero_add, sub_zero, one_mul, min_eq_right h2, max_eq_right h1]

/-- The pairing of two runs that agree on everything string 2 can observe,
with a frozen (stiffness-0, in-range) bridge. -/
def Decoupled (sA sB : SympatheticStrings) : Prop :=
  sA.string2 = sB.string2 ∧ sA.bridgeY = sB.bridgeY
    ∧ sA.bridgeStiffness = 0 ∧ sB.bridgeStiffness = 0
    ∧ sA.dt = sB.dt ∧ -(1/2) ≤ sA.bridgeY ∧ sA.bridgeY ≤ 1/2
    ∧ sA.stepCount = sB.stepCount
    ∧ sA.energy2History = sB.energy2History
    ∧ sA.energy1History.length = sB.energy1History.length

lemma decoupled_stepOnce {sA sB : SympatheticStrings} (h : Decoupled sA sB) :
    Decoupled sA.stepOnce sB.stepOnce := by
  obtain ⟨h2, hb, hsA, hsB, hdt, hr1, hr2, hc, he2, hl1⟩ := h
  have nbA : newBridgeYD sA = sA.bridgeY := newBridgeYD_stiffness_zero sA hsA hr1 hr2
  have nbB : newBridgeYD sB = sB.bridgeY := by
    refine newBridgeYD_stiffness_zero sB hsB ?_ ?_ <;> rw [← hb] <;> assumption
  have hstr2eq :
      commitString sA.string2
          (yNewFun sA.string2 (courantSq sA.string2 sA.dt) sA.dt (newBridgeYD sA)) sA.dt
        = commitString sB.string2
            (yNewFun sB.string2 (courantSq sB.string2 sB.dt) sB.dt (newBridgeYD sB)) sB.dt := by
    rw [h2, hdt, nbA, hb, ← nbB]
  refine ⟨?_, ?_, ?_, ?_, ?_, ?_, ?_, ?_, ?_, ?_⟩
  · rw [stepOnce_string2, stepOnce_string2]
    exact hstr2eq
  · rw [stepOnce_bridgeY, stepOnce_bridgeY, nbA, nbB, hb]
  · rw [stepOnce_bridgeStiffness]; exact hsA
  · rw [stepOnce_bridgeStiffness]; exact hsB
  · rw [stepOnce_dt, stepOnce_dt]; exact hdt
  · rw [stepOnce_bridgeY, nbA]; exact hr1
  · rw [stepOnce_bridgeY, nbA]; exact hr2
  · rw [stepOnce_stepCount, stepOnce_stepCount, hc]
  · rw [stepOnce_energy2History, stepOnce_energy2History, hc, hl1, he2]
    have : (commitSim sA).string2.totalEnergy = (commitSim sB).string2.totalEnergy :=
      congrArg StringState.totalEnergy hstr2eq
    rw [this]
  · rw [stepOnce_energy1History, stepOnce_energy1History, hc]
    by_cases hrec : (sB.stepCount + 1) % 100 = 0
    · rw [if_pos hrec, if_pos hrec]
      by_cases hev : HISTORY_LENGTH ≤ sA.energy1History.length
      · rw [if_pos hev, if_pos (hl1 ▸ hev)]
        simp [hl1]
      · rw [if_neg hev, if_neg (hl1 ▸ hev)]
        simp [hl1]
    · rw [if_neg hrec, if_neg hrec]
      exact hl1

/-- Claim C7: with `bridgeStiffness = 0` (and the bridge in its clamp range,
as in every reachable state), a pluck of string 1 is invisible to string 2:
after any number of steps, string 2's whole state and its recorded energy
history agree with the unperturbed run, and the bridge position never moves
in either run. -/
theorem stiffness_zero_decouples (sim : SympatheticStrings) (p a : ℚ) (n : ℕ)
    (hs : sim.bridgeStiffness = 0)
    (h1 : -(1/2) ≤ sim.bridgeY) (h2 : sim.bridgeY ≤ 1/2) :
    ((sim.pluck 0 p a).step n).string2 = (sim.step n).string2
      ∧ ((sim.pluck 0 p a).step n).energy2History = (sim.step n).energy2History
      ∧ ((sim.pluck 0 p a).step n).bridgeY = sim.bridgeY
      ∧ (sim.step n).bridgeY = sim.bridgeY := by
  have main : ∀ m : ℕ,
      Decoupled ((sim.pluck 0 p a).step m) (sim.step m)
        ∧ ((sim.pluck 0 p a).step m).bridgeY = sim.bridgeY
        ∧ (sim.step m).bridgeY = sim.bridgeY := by
    intro m
    induction m with
    | zero =>
      refine ⟨⟨rfl, rfl, hs, hs, rfl, h1, h2, rfl, rfl, rfl⟩, rfl, rfl⟩
    | succ k ih =>
      obtain ⟨hd, hbA, hbB⟩ := ih
      have hA : (sim.pluck 0 p a).step (k + 1) = ((sim.pluck 0 p a).step k).stepOnce := by
        simp [SympatheticStrings.step, Function.iterate_succ_apply']
      have hB : sim.step (k + 1) = (sim.step k).stepOnce := by
        simp [SympatheticStrings.step, Function.iterate_succ_apply']
      refine ⟨hA ▸ hB ▸ decoupled_stepOnce hd, ?_, ?_⟩
      · rw [hA, stepOnce_bridgeY,
          newBridgeYD_stiffness_zero _ hd.2.2.1 hd.2.2.2.2.2.1 hd.2.2.2.2.2.2.1]
        exact hbA
      · rw [hB, stepOnce_bridgeY]
        have hr1 : -(1/2) ≤ (sim.step k).bridgeY := hd.2.1 ▸ hd.2.2.2.2.2.1
        have hr2 : (sim.step k).bridgeY ≤ 1/2 := hd.2.1 ▸ hd.2.2.2.2.2.2.1
        rw [newBridgeYD_stiffness_zero _ hd.2.2.2.1 hr1 hr2]
        exact hbB
  obtain ⟨hd, hbA, hbB⟩ := main n
  exact ⟨hd.1, hd.2.2.2.2.2.2.2.2.1, hbA, hbB⟩

/-- Witness for C7: the default state with the stiffness set to 0, a pluck of
string 1 at the middle, and 3 steps. -/
theorem stiffness_zero_decouples_witness :
    (((SympatheticStrings.mkDefault.setBridgeStiffness 0).pluck 0 (1/2) 1).step 3).string2
      = ((SympatheticStrings.mkDefault.setBridgeStiffness 0).step 3).string2 := by
  refine (stiffness_zero_decouples (SympatheticStrings.mkDefault.setBridgeStiffness 0)
    (1/2) 1 3 ?_ ?_ ?_).1
  · show max 0 (min 1 0) = 0
    norm_num
  · show -(1/2 : ℚ) ≤ 0
    norm_num
  · show (0 : ℚ) ≤ 1/2
    norm_num

lemma pluck_histories (sim : SympatheticStrings) (i : ℤ) (p a : ℚ) :
    (sim.pluck i p a).energy1History = sim.energy1History
      ∧ (sim.pluck i p a).energy2History = sim.energy2History
      ∧ (sim.pluck i p a).bridgeHistory = sim.bridgeHistory := by
  simp only [SympatheticStrings.pluck]
  split <;> exact ⟨rfl, rfl, rfl⟩

/-- The three history sequences stay aligned and bounded. -/
def HistOk (s : SympatheticStrings) : Prop :=
  s.energy1History.length = s.energy2History.length
    ∧ s.energy1History.length = s.bridgeHistory.length
    ∧ s.energy1History.length ≤ HISTORY_LENGTH

lemma histOk_stepOnce {sim : SympatheticStrings} (h : HistOk sim) :
    HistOk sim.stepOnce := by
  obtain ⟨h12, h1b, hle⟩ := h
  unfold HistOk
  rw [stepOnce_energy1History, stepOnce_energy2History, stepOnce_bridgeHistory]
  by_cases hrec : (sim.stepCount + 1) % 100 = 0
  · rw [if_pos hrec, if_pos hrec, if_pos hrec]
    by_cases hev : HISTORY_LENGTH ≤ sim.energy1History.length
    · rw [if_pos hev, if_pos hev, if_pos hev]
      simp only [List.length_append, List.length_drop, List.length_singleton,
        HISTORY_LENGTH] at *
      omega
    · rw [if_neg hev, if_neg hev, if_neg hev]
      simp only [List.length_append, List.length_singleton, HISTORY_LENGTH] at *
      omega
  · rw [if_neg hrec, if_neg hrec, if_neg hrec]
    exact ⟨h12, h1b, hle⟩

lemma reachable_histOk {s : SympatheticStrings} (h : Reachable s) : HistOk s := by
  induction h with
  | init => exact ⟨rfl, rfl, by norm_num [SympatheticStrings.mkDefault, HISTORY_LENGTH]⟩
  | stepOnce _ ih => exact histOk_stepOnce ih
  | pluck i p a _ ih =>
    rename_i sim _
    obtain ⟨e1, e2, eb⟩ := pluck_histories sim i p a
    unfold HistOk
    rw [e1, e2, eb]
    exact ih
  | reset _ _ => exact ⟨rfl, rfl, by norm_num [SympatheticStrings.reset, HISTORY_LENGTH]⟩
  | setF1 f _ ih => exact ih
  | setF2 f _ ih => exact ih
  | setDamping d _ ih => exact ih
  | setStiffness s _ ih => exact ih

/-- Claim C8: a history triple is appended exactly when the incremented
`stepCount` is a multiple of 100, with the oldest element of each sequence
evicted first when full (length ≥ 500, tested on `energy1History`); the three
sequences therefore keep identical lengths, never exceeding 500, in every
reachable state. -/
theorem history_cadence_and_bounds (sim : SympatheticStrings) :
    ((sim.stepCount + 1) % 100 = 0 →
        sim.stepOnce.energy1History =
            (if HISTORY_LENGTH ≤ sim.energy1History.length then sim.energy1History.drop 1
              else sim.energy1History) ++ [sim.stepOnce.string1.totalEnergy]
          ∧ sim.stepOnce.energy2History =
            (if HISTORY_LENGTH ≤ sim.energy1History.length then sim.energy2History.drop 1
              else sim.energy2History) ++ [sim.stepOnce.string2.totalEnergy]
          ∧ sim.stepOnce.bridgeHistory =
            (if HISTORY_LENGTH ≤ sim.energy1History.length then sim.bridgeHistory.drop 1
              else sim.bridgeHistory) ++ [sim.stepOnce.bridgeY])
    ∧ ((sim.stepCount + 1) % 100 ≠ 0 →
        sim.stepOnce.energy1History = sim.energy1History
          ∧ sim.stepOnce.energy2History = sim.energy2History
          ∧ sim.stepOnce.bridgeHistory = sim.bridgeHistory)
    ∧ (∀ s : SympatheticStrings, Reachable s →
        s.energy1History.length = s.energy2History.length
          ∧ s.energy1History.length = s.bridgeHistory.length
          ∧ s.energy1History.length ≤ HISTORY_LENGTH) := by
  refine ⟨?_, ?_, fun s hs => reachable_histOk hs⟩
  · intro hrec
    refine ⟨?_, ?_, ?_⟩
    · rw [stepOnce_energy1History, if_pos hrec, stepOnce_string1]
      rfl
    · rw [stepOnce_energy2History, if_pos hrec, stepOnce_string2]
      rfl
    · rw [stepOnce_bridgeHistory, if_pos hrec, stepOnce_bridgeY]
      rfl
  · intro hrec
    exact ⟨by rw [stepOnce_energy1History, if_neg hrec],
      by rw [stepOnce_energy2History, if_neg hrec],
      by rw [stepOnce_bridgeHistory, if_neg hrec]⟩

/-- Witness for C8: the record branch at a concrete state with
`stepCount = 99`, the no-record branch and the length invariant at the
freshly constructed state. -/
theorem history_cadence_and_bounds_witness :
    ({ SympatheticStrings.mkDefault with stepCount := 99 } : SympatheticStrings).stepOnce.energy1History
        = (if HISTORY_LENGTH ≤ ({ SympatheticStrings.mkDefault with stepCount := 99 } : SympatheticStrings).energy1History.length
            then ({ SympatheticStrings.mkDefault with stepCount := 99 } : SympatheticStrings).energy1History.drop 1
            else ({ SympatheticStrings.mkDefault with stepCount := 99 } : SympatheticStrings).energy1History)
          ++ [({ SympatheticStrings.mkDefault with stepCount := 99 } : SympatheticStrings).stepOnce.string1.totalEnergy]
      ∧ SympatheticStrings.mkDefault.stepOnce.energy1History
          = SympatheticStrings.mkDefault.energy1History
      ∧ SympatheticStrings.mkDefault.energy1History.length ≤ HISTORY_LENGTH :=
  ⟨((history_cadence_and_bounds { SympatheticStrings.mkDefault with stepCount := 99 }).1
      (by decide)).1,
    ((history_cadence_and_bounds SympatheticStrings.mkDefault).2.1 (by decide)).1,
    ((history_cadence_and_bounds SympatheticStrings.mkDefault).2.2
      SympatheticStrings.mkDefault Reachable.init).2.2⟩

/-- `dt` is fixed at construction and never modified by any operation. -/
lemma reachable_dt {s : SympatheticStrings} (h : Reachable s) :
    s.dt = 1 / (44100 * 8) := by
  induction h with
  | init => rfl
  | stepOnce _ ih =>
    rename_i sim _
    rw [stepOnce_dt]
    exact ih
  | pluck i p a _ ih =>
    rename_i sim _
    simp only [SympatheticStrings.pluck]
    split <;> exact ih
  | reset _ ih => exact ih
  | setF1 f _ ih => exact ih
  | setF2 f _ ih => exact ih
  | setDamping d _ ih => exact ih
  | setStiffness s _ ih => exact ih

/-- Claim C9: from every reachable state, `reset()` produces the very state a
fresh construction produces — default frequencies 261.63 and 392 Hz (with the
tension and squared wave speed `setFrequency` derives from them), zero
buffers, zero bridge position and velocity, stiffness 1, zero time and step
count, and empty histories. -/
theorem reset_matches_fresh_construction {s : SympatheticStrings} (h : Reachable s) :
    s.reset = SympatheticStrings.mkDefault
      ∧ SympatheticStrings.mkDefault.string1.frequency = 26163/100
      ∧ SympatheticStrings.mkDefault.string2.frequency = 392
      ∧ SympatheticStrings.mkDefault.string1.tension
          = 4 * (1/1000) * 1 * 1 * (26163/100) * (26163/100)
      ∧ SympatheticStrings.mkDefault.string2.tension = 4 * (1/1000) * 1 * 1 * 392 * 392
      ∧ (∀ i, SympatheticStrings.mkDefault.string1.y i = 0)
      ∧ (∀ i, SympatheticStrings.mkDefault.string1.v i = 0)
      ∧ (∀ i, SympatheticStrings.mkDefault.string2.y i = 0)
      ∧ (∀ i, SympatheticStrings.mkDefault.string2.v i = 0)
      ∧ SympatheticStrings.mkDefault.bridgeY = 0
      ∧ SympatheticStrings.mkDefault.bridgeV = 0
      ∧ SympatheticStrings.mkDefault.bridgeStiffness = 1
      ∧ SympatheticStrings.mkDefault.time = 0
      ∧ SympatheticStrings.mkDefault.stepCount = 0
      ∧ SympatheticStrings.mkDefault.energy1History = []
      ∧ SympatheticStrings.mkDefault.energy2History = []
      ∧ SympatheticStrings.mkDefault.bridgeHistory = [] := by
  refine ⟨?_, rfl, rfl, rfl, rfl, fun i => rfl, fun i => rfl, fun i => rfl, fun i => rfl,
    rfl, rfl, rfl, rfl, rfl, rfl, rfl, rfl⟩
  refine SympatheticStrings.ext ?_ ?_ ?_ ?_ ?_ ?_ ?_ ?_ ?_ ?_ ?_ <;> try rfl
  show s.dt = 1 / (44100 * 8)
  exact reachable_dt h

/-- Witness for C9 at the freshly constructed state. -/
theorem reset_matches_fresh_construction_witness :
    SympatheticStrings.mkDefault.reset = SympatheticStrings.mkDefault :=
  (reset_matches_fresh_construction Reachable.init).1

/-- Claim C10: `setString1Frequency` (and symmetrically `setString2Frequency`)
touches only the targeted string's `frequency`, `tension` and wave-speed
fields; its sample buffers, damping, density, length, stored energies and
bridge force, the other string, the bridge state, counters and all history
sequences are untouched. -/
theorem setFrequency_frame (sim : SympatheticStrings) (f : ℚ) :
    ((sim.setString1Frequency f).string1.y = sim.string1.y
      ∧ (sim.setString1Frequency f).string1.y_prev = sim.string1.y_prev
      ∧ (sim.setString1Frequency f).string1.v = sim.string1.v
      ∧ (sim.setString1Frequency f).string1.damping = sim.string1.damping
      ∧ (sim.setString1Frequency f).string1.density = sim.string1.density
      ∧ (sim.setString1Frequency f).string1.length = sim.string1.length
      ∧ (sim.setString1Frequency f).string1.kineticEnergy = sim.string1.kineticEnergy
      ∧ (sim.setString1Frequency f).string1.potentialEnergy = sim.string1.potentialEnergy
      ∧ (sim.setString1Frequency f).string1.totalEnergy = sim.string1.totalEnergy
      ∧ (sim.setString1Frequency f).string1.forceOnBridge = sim.string1.forceOnBridge
      ∧ (sim.setString1Frequency f).string2 = sim.string2
      ∧ (sim.setString1Frequency f).bridgeY = sim.bridgeY
      ∧ (sim.setString1Frequency f).bridgeV = sim.bridgeV
      ∧ (sim.setString1Frequency f).bridgeStiffness = sim.bridgeStiffness
      ∧ (sim.setString1Frequency f).dt = sim.dt
      ∧ (sim.setString1Frequency f).time = sim.time
      ∧ (sim.setString1Frequency f).stepCount = sim.stepCount
      ∧ (sim.setString1Frequency f).energy1History = sim.energy1History
      ∧ (sim.setString1Frequency f).energy2History = sim.energy2History
      ∧ (sim.setString1Frequency f).bridgeHistory = sim.bridgeHistory
      ∧ (sim.setString1Frequency f).string1.frequency = max 50 (min 1000 f))
    ∧ ((sim.setString2Frequency f).string2.y = sim.string2.y
      ∧ (sim.setString2Frequency f).string2.y_prev = sim.string2.y_prev
      ∧ (sim.setString2Frequency f).string2.v = sim.string2.v
      ∧ (sim.setString2Frequency f).string2.damping = sim.string2.damping
      ∧ (sim.setString2Frequency f).string2.density = sim.string2.density
      ∧ (sim.setString2Frequency f).string2.length = sim.string2.length
      ∧ (sim.setString2Frequency f).string2.kineticEnergy = sim.string2.kineticEnergy
      ∧ (sim.setString2Frequency f).string2.potentialEnergy = sim.string2.potentialEnergy
      ∧ (sim.setString2Frequency f).string2.totalEnergy = sim.string2.totalEnergy
      ∧ (sim.setString2Frequency f).string2.forceOnBridge = sim.string2.forceOnBridge
      ∧ (sim.setString2Frequency f).string1 = sim.string1
      ∧ (sim.setString2Frequency f).bridgeY = sim.bridgeY
      ∧ (sim.setString2Frequency f).bridgeV = sim.bridgeV
      ∧ (sim.setString2Frequency f).bridgeStiffness = sim.bridgeStiffness
      ∧ (sim.setString2Frequency f).dt = sim.dt
      ∧ (sim.setString2Frequency f).time = sim.time
      ∧ (sim.setString2Frequency f).stepCount = sim.stepCount
      ∧ (sim.setString2Frequency f).energy1History = sim.energy1History
      ∧ (sim.setString2Frequency f).energy2History = sim.energy2History
      ∧ (sim.setString2Frequency f).bridgeHistory = sim.bridgeHistory
      ∧ (sim.setString2Frequency f).string2.frequency = max 50 (min 1000 f)) :=
  ⟨⟨rfl, rfl, rfl, rfl, rfl, rfl, rfl, rfl, rfl, rfl, rfl, rfl, rfl, rfl, rfl, rfl,
      rfl, rfl, rfl, rfl, rfl⟩,
    ⟨rfl, rfl, rfl, rfl, rfl, rfl, rfl, rfl, rfl, rfl, rfl, rfl, rfl, rfl, rfl, rfl,
      rfl, rfl, rfl, rfl, rfl⟩⟩
